import Mathlib

/-!
# Verification of the USL model-fitting library (`src/lib.rs`)

Shallow embedding of the Universal Scalability Law library. Conventions:

* Rust `f64` values are modelled as exact rationals (`ℚ`): decimal literals are
  taken exactly, and arithmetic is exact. Where a claim hinges on the behaviour
  of a zero divisor or an out-of-range cast — places where IEEE-754 produces
  `±inf`/`NaN` and Rust's `as` cast saturates — the embedding spells the IEEE
  outcome out by explicit case analysis, documented at each definition.
* Rust `u32` is modelled as `ℕ` (the cast `u32 → f64` is exact, and no u32
  arithmetic in the source can overflow); `Duration.as_secs_f64` becomes a
  rational number of seconds.
* Rust panics (`assert!`, explicit `panic!`) are modelled by a dedicated
  `BuildResult.panicked` outcome carrying the panic message, distinct from
  returning a value: a panic aborts the process and is not a recoverable
  error value.
* The external Levenberg–Marquardt solver (`rmpfit::MPFitter::mpfit`) is not
  part of this repository; `Model.build` is therefore parameterised by an
  abstract solver that receives the fitter (the measurement set) and the
  initial parameter vector and returns either converged parameters or an
  error, exactly the interface the source delegates to.
-/

namespace USL

/-- `struct Measurement { n: f64, x: f64, r: f64 }`: a simultaneous measurement
of concurrency `n`, throughput `x` and latency `r`. -/
structure Measurement where
  n : ℚ
  x : ℚ
  r : ℚ
  deriving Repr, DecidableEq

namespace Measurement

/-- `Measurement::concurrency_and_latency(n: u32, r: Duration)`:
`Measurement { n, x: n / r, r }`. The Lean `ℚ` convention `q / 0 = 0` stands
in for the IEEE quotient `+inf` (`n > 0`) / `NaN` (`n = 0`) that the source
stores when `r = 0`; no claim asserts the numeric value of that garbage field. -/
def concurrency_and_latency (n : ℕ) (r : ℚ) : Measurement :=
  { n := (n : ℚ), x := (n : ℚ) / r, r := r }

/-- `Measurement::concurrency_and_throughput(n: u32, x: f64)`:
`Measurement { n, x, r: n / x }` (same zero-divisor convention as above). -/
def concurrency_and_throughput (n : ℕ) (x : ℚ) : Measurement :=
  { n := (n : ℚ), x := x, r := (n : ℚ) / x }

/-- `Measurement::throughput_and_latency(x: f64, r: Duration)`:
`Measurement { n: x * r, x, r }`. -/
def throughput_and_latency (x r : ℚ) : Measurement :=
  { n := x * r, x := x, r := r }

end Measurement

/-- `struct Model { sigma: f64, kappa: f64, lambda: f64 }`: the three fitted
USL coefficients. -/
structure Model where
  sigma : ℚ
  kappa : ℚ
  lambda : ℚ
  deriving Repr, DecidableEq

namespace Model

/-- `Model::throughput_at_concurrency(n: u32)`:
`(self.lambda * n) / (1.0 + (self.sigma * (n - 1.0)) + (self.kappa * n * (n - 1.0)))`. -/
def throughput_at_concurrency (m : Model) (n : ℕ) : ℚ :=
  (m.lambda * (n : ℚ)) /
    (1 + (m.sigma * ((n : ℚ) - 1)) + (m.kappa * (n : ℚ) * ((n : ℚ) - 1)))

/-- `Model::latency_at_concurrency(n: u32)`:
`(1.0 + (self.sigma * (n - 1.0)) + (self.kappa * n * (n - 1.0))) / self.lambda`. -/
def latency_at_concurrency (m : Model) (n : ℕ) : ℚ :=
  (1 + (m.sigma * ((n : ℚ) - 1)) + (m.kappa * (n : ℚ) * ((n : ℚ) - 1))) / m.lambda

end Model

/-- `pub const MIN_MEASUREMENTS: usize = 6`. -/
def MIN_MEASUREMENTS : ℕ := 6

/-- `struct ModelFitter(Vec<Measurement>)`: the adapter that bridges the
measurement set into the solver's interface. -/
structure ModelFitter where
  measurements : List Measurement
  deriving Repr

/-- Rust's saturating cast `f64 as u32`: truncation toward zero, clamped to
`[0, u32::MAX]` (negative values and `NaN` go to `0`, values above
`u32::MAX` to `4294967295`). For `q ≥ 0` truncation toward zero is `⌊q⌋`. -/
def f64AsU32 (q : ℚ) : ℕ :=
  min (Int.toNat ⌊q⌋) 4294967295

namespace ModelFitter

/-- `ModelFitter::init_params`:
`vec![0.1, 0.01, self.0.iter().map(|m| m.x / m.n).fold(f64::NEG_INFINITY, f64::max)]`.
The 3-vector is modelled as a triple; `f64::NEG_INFINITY`, the fold's seed,
is modelled as `⊥` in `WithBot ℚ` (`f64::max(NEG_INFINITY, v) = v`). -/
def init_params (f : ModelFitter) : ℚ × ℚ × WithBot ℚ :=
  (1/10, 1/100, (f.measurements.map fun m => ((m.x / m.n : ℚ) : WithBot ℚ)).foldl max ⊥)

/-- `MPFitter::eval` for `ModelFitter`: builds
`Model { sigma: params[0], kappa: params[1], lambda: params[2] }` and fills the
deviate for each measurement with
`m.x - model.throughput_at_concurrency(m.n as u32)`. The source writes into
the `deviates` buffer zipped with the measurements and returns `Ok(())`;
modelled as returning the list of deviates. Note the cast `m.n as u32`:
the measurement's `f64` concurrency is truncated before evaluation. -/
def eval (f : ModelFitter) (params : ℚ × ℚ × ℚ) : List ℚ :=
  let model : Model := { sigma := params.1, kappa := params.2.1, lambda := params.2.2 }
  f.measurements.map fun m => m.x - model.throughput_at_concurrency (f64AsU32 m.n)

end ModelFitter

/-- The outcome of running `Model::build`: either a `Model` or a Rust panic
(process abort) with its message. A panic is not a value the caller receives;
it is modelled explicitly so that the failure paths of `build` can be
reasoned about. -/
inductive BuildResult where
  | ok : Model → BuildResult
  | panicked : String → BuildResult
  deriving Repr, DecidableEq

/-- The interface of the external Levenberg–Marquardt solver
(`rmpfit::MPFitter::mpfit`), which is an external crate, not code of this
repository: it receives the fitter (whose `eval` it may call) and the initial
parameter vector (which it mutates in place — modelled by returning the final
parameters), and yields either converged parameters or an error. -/
def Solver : Type :=
  ModelFitter → ℚ × ℚ × WithBot ℚ → Except String (ℚ × ℚ × ℚ)

namespace Model

/-- `Model::build(measurements: &[Measurement])`, parameterised by the external
solver. The source:
1. `assert!(measurements.len() >= MIN_MEASUREMENTS, "must have at least 6 measurements")`
   — an assertion failure is a panic;
2. builds `ModelFitter`, computes `init_params`, calls `fitter.mpfit(...)`;
3. `if let Err(err) = ... { panic!("lma error: {}", err) }`;
4. on success returns `Model { sigma: params[0], kappa: params[1], lambda: params[2] }`. -/
def build (solver : Solver) (measurements : List Measurement) : BuildResult :=
  if measurements.length < MIN_MEASUREMENTS then
    .panicked "must have at least 6 measurements"
  else
    let fitter : ModelFitter := { measurements := measurements }
    match solver fitter fitter.init_params with
    | .error err => .panicked ("lma error: " ++ err)
    | .ok params => .ok { sigma := params.1, kappa := params.2.1, lambda := params.2.2 }

/-- `impl FromIterator<Measurement> for Model`: collects the iterator into a
`Vec<Measurement>` and calls `Model::build` on it. An iterator of items is
modelled as the list of items it yields. -/
def from_iter_measurements (solver : Solver) (iter : List Measurement) : BuildResult :=
  build solver iter

/-- `impl FromIterator<&(u32, f64)> for Model` (the `from_iterator!` macro):
maps each tuple through `m.into()` — which the `from_tuple!` macro defines as
`Measurement::concurrency_and_throughput(v.0, v.1)` — collects, and calls
`Model::build`. -/
def from_iter_tuples (solver : Solver) (iter : List (ℕ × ℚ)) : BuildResult :=
  build solver (iter.map fun v => Measurement.concurrency_and_throughput v.1 v.2)

end Model

/-- `f64::EPSILON = 2⁻⁵²`, the default `epsilon` and `max_relative` of the
`approx` crate's `relative_eq!`. -/
def f64Epsilon : ℚ := 1 / 2 ^ 52

/-- `approx::relative_eq!(a, b)` with default settings, on finite inputs:
true iff `a == b`, or `|a - b| <= epsilon`, or
`|a - b| <= max(|a|, |b|) * max_relative` (the source's infinity check never
fires on finite inputs, the only ones representable here). -/
def relative_eq (a b : ℚ) : Bool :=
  decide (a = b) || decide (|a - b| ≤ f64Epsilon) ||
    decide (|a - b| ≤ max |a| |b| * f64Epsilon)

namespace Model

/-- `Model::max_concurrency`:
`(((1.0 - self.sigma) / self.kappa).sqrt()).floor() as u32`.
The IEEE edge cases of the source expression are spelled out by case analysis:
* `κ = 0`: the quotient is `+inf` when `1 − σ > 0` (then `sqrt` and `floor`
  give `+inf` and the saturating cast yields `u32::MAX = 4294967295`), and
  `-inf` (`1 − σ < 0`) or `NaN` (`1 − σ = 0`) otherwise, whose `sqrt` is
  `NaN`, cast to `0`;
* `κ ≠ 0` with a negative quotient: `sqrt` of a negative is `NaN`, cast `0`;
* otherwise the quotient is an exact nonnegative rational `q` and
  `⌊√q⌋ = Nat.sqrt ⌊q⌋` (for `k : ℕ`, `k ≤ √q ↔ k² ≤ q ↔ k² ≤ ⌊q⌋`),
  clamped by the saturating cast. -/
def max_concurrency (m : Model) : ℕ :=
  if m.kappa = 0 then (if 0 < 1 - m.sigma then 4294967295 else 0)
  else if (1 - m.sigma) / m.kappa < 0 then 0
  else min (Nat.sqrt (Int.toNat ⌊(1 - m.sigma) / m.kappa⌋)) 4294967295

/-- `Model::max_throughput`: `self.throughput_at_concurrency(self.max_concurrency())`. -/
def max_throughput (m : Model) : ℚ :=
  m.throughput_at_concurrency m.max_concurrency

/-- `Model::is_contention_constrained`: `self.sigma > self.kappa`. -/
def is_contention_constrained (m : Model) : Bool :=
  decide (m.kappa < m.sigma)

/-- `Model::is_coherency_constrained`: `self.sigma < self.kappa`. -/
def is_coherency_constrained (m : Model) : Bool :=
  decide (m.sigma < m.kappa)

/-- `Model::is_limitless`: `relative_eq!(self.kappa, 0.0)`. -/
def is_limitless (m : Model) : Bool :=
  relative_eq m.kappa 0

end Model

/-- The USL target equation written from the spec's words:
`X(N) = λN / (1 + σ(N−1) + κN(N−1))`, at a rational concurrency `n`.
Used to compare the source functions against the spec formula. -/
def targetX (sigma kappa lambda n : ℚ) : ℚ :=
  lambda * n / (1 + sigma * (n - 1) + kappa * n * (n - 1))

end USL

open USL

/-- `relative_eq!(k, 0.0)` holds exactly when `|k| ≤ f64::EPSILON`: the
relative branch `|k| ≤ |k| · ε` forces `k = 0` since `ε < 1`. -/
theorem relative_eq_zero_iff (k : ℚ) : relative_eq k 0 = true ↔ |k| ≤ f64Epsilon := by
  simp only [relative_eq, Bool.or_eq_true, decide_eq_true_eq, sub_zero, abs_zero,
    max_eq_left (abs_nonneg k)]
  constructor
  · rintro ((h | h) | h)
    · simp [h, f64Epsilon]
    · exact h
    · rw [show f64Epsilon = 1 / 2 ^ 52 from rfl] at h
      have hk : |k| ≤ 0 := by nlinarith [abs_nonneg k]
      have : |k| = 0 := le_antisymm hk (abs_nonneg k)
      simp [this, f64Epsilon]
  · intro h
    exact Or.inl (Or.inr h)

/-- **C1.** For every model `(σ, κ, λ)` and every concurrency `n ≥ 0` (any
`u32`), `throughput_at_concurrency n` equals the USL target equation
`λn / (1 + σ(n−1) + κn(n−1))` evaluated at `n`. -/
theorem throughput_at_concurrency_eq_target (m : Model) (n : ℕ) :
    m.throughput_at_concurrency n = targetX m.sigma m.kappa m.lambda (n : ℚ) := by
  rfl

/-- **C5.** Every Measurement produced by the three constructors from valid
inputs (`r > 0` for `concurrency_and_latency`, `x > 0` for
`concurrency_and_throughput`, any inputs for `throughput_and_latency`)
satisfies Little's Law `n = x · r` exactly at construction time. -/
theorem measurement_littles_law (n : ℕ) (x r : ℚ) (hr : 0 < r) (hx : 0 < x) :
    ((Measurement.concurrency_and_latency n r).n =
      (Measurement.concurrency_and_latency n r).x *
        (Measurement.concurrency_and_latency n r).r) ∧
    ((Measurement.concurrency_and_throughput n x).n =
      (Measurement.concurrency_and_throughput n x).x *
        (Measurement.concurrency_and_throughput n x).r) ∧
    ((Measurement.throughput_and_latency x r).n =
      (Measurement.throughput_and_latency x r).x *
        (Measurement.throughput_and_latency x r).r) := by
  refine ⟨?_, ?_, rfl⟩
  · simp [Measurement.concurrency_and_latency, div_mul_cancel₀, hr.ne']
  · simp [Measurement.concurrency_and_throughput, mul_div_cancel₀, hx.ne']

/-- **C2.** For every collection of fewer than `MIN_MEASUREMENTS = 6`
measurements, `Model::build` fails reporting insufficient data (the assertion
`"must have at least 6 measurements"`) before any solver work is attempted —
the outcome is the same for every solver — and no `Model` is produced. -/
theorem build_insufficient_data (ms : List Measurement)
    (h : ms.length < MIN_MEASUREMENTS) :
    (∀ solver : Solver,
      Model.build solver ms = .panicked "must have at least 6 measurements") ∧
    (∀ s t : Solver, Model.build s ms = Model.build t ms) ∧
    (∀ (solver : Solver) (m : Model), Model.build solver ms ≠ .ok m) := by
  refine ⟨fun solver => ?_, fun s t => ?_, fun solver m => ?_⟩ <;>
    simp [Model.build, h]

/-- Witness for C2 on the empty measurement list and a trivial solver. -/
theorem build_insufficient_data_witness :
    ([] : List Measurement).length < MIN_MEASUREMENTS ∧
    Model.build (fun _ _ => .ok (0, 0, 1)) [] =
      .panicked "must have at least 6 measurements" :=
  ⟨by decide, (build_insufficient_data [] (by decide)).1 _⟩

/-- **C3, counterexample.** On solver non-convergence `Model::build` does NOT
return a recoverable error: it panics (`panic!("lma error: {}", err)`),
aborting the process. Here six valid measurements and a solver reporting
non-convergence drive `build` into the panic outcome (`BuildResult.panicked`
models the process abort, not a returned error value), refuting the claim
that a reported, recoverable error is returned. -/
theorem build_solver_failure_is_panic :
    Model.build (fun _ _ => .error "non-convergence")
      ((List.range 6).map fun i => Measurement.concurrency_and_throughput (i + 1) 1) =
      .panicked "lma error: non-convergence" := by
  rfl

/-- **C3, amended.** For every measurement set accepted by the length check
and every solver outcome that is an error, `Model::build` panics with the
message `"lma error: " ++ err` — a process abort, not a recoverable error —
and no partial or best-effort `Model` is returned as a success. -/
theorem build_solver_failure_panics (ms : List Measurement) (solver : Solver)
    (err : String) (hlen : ¬ ms.length < MIN_MEASUREMENTS)
    (hsol : solver { measurements := ms }
      (ModelFitter.init_params { measurements := ms }) = .error err) :
    Model.build solver ms = .panicked ("lma error: " ++ err) ∧
    (∀ m : Model, Model.build solver ms ≠ .ok m) := by
  constructor
  · simp [Model.build, hlen, hsol]
  · intro m
    simp [Model.build, hlen, hsol]

/-- Witness for C3 (amended) on six concrete measurements and a concrete
non-converging solver. -/
theorem build_solver_failure_panics_witness :
    Model.build (fun _ _ => .error "max iterations")
      ((List.range 6).map fun i => Measurement.concurrency_and_throughput (i + 1) 1) =
      .panicked ("lma error: " ++ "max iterations") :=
  (build_solver_failure_panics
    ((List.range 6).map fun i => Measurement.concurrency_and_throughput (i + 1) 1)
    (fun _ _ => .error "max iterations") "max iterations"
    (by decide) rfl).1

/-- **C10.** Building a `Model` by collecting an iterator (the `FromIterator`
implementations) gives exactly the same `BuildResult` as converting each item
to a `Measurement` and calling `Model::build` on the collected list: the same
coefficients on success and the same failure outcome on short input or on
solver failure, for every solver. -/
theorem from_iter_eq_build (solver : Solver) (l : List Measurement)
    (t : List (ℕ × ℚ)) :
    Model.from_iter_measurements solver l = Model.build solver l ∧
    Model.from_iter_tuples solver t =
      Model.build solver (t.map fun v => Measurement.concurrency_and_throughput v.1 v.2) :=
  ⟨rfl, rfl⟩

/-- Casting back a `u32`-valued rational through Rust's `f64 as u32` is the
identity when the value fits in `u32`. -/
theorem f64AsU32_natCast (k : ℕ) (h : k ≤ 4294967295) : f64AsU32 (k : ℚ) = k := by
  simp [f64AsU32, Int.floor_natCast, h]

/-- **C6, counterexample.** The residual supplied to the solver is computed at
the TRUNCATED concurrency `m.n as u32`, not at `m.n` itself: for the
measurement `throughput_and_latency(5, 500ms)` (concurrency `n = 5/2`) and
candidate parameters `(σ, κ, λ) = (0, 0, 1)` the code's deviate is
`5 − X(2) = 3`, while the claim's `x − X(n)` is `5 − X(5/2) = 5/2`. -/
theorem eval_ne_target_residual :
    ModelFitter.eval { measurements := [Measurement.throughput_and_latency 5 (1/2)] }
      (0, 0, 1) ≠
    [Measurement.throughput_and_latency 5 (1/2)].map
      (fun m => m.x - targetX 0 0 1 m.n) := by
  norm_num [ModelFitter.eval, Measurement.throughput_and_latency, f64AsU32,
    Model.throughput_at_concurrency, targetX]
  norm_num [show Int.toNat 2 = 2 from rfl]

/-- **C6, amended.** For every candidate parameter vector and every
measurement whose concurrency is a whole number representable in `u32` —
which holds for all measurements built from integer concurrency — the signed
residual supplied to the solver equals `x_i − X(n_i; σ, κ, λ)`, the observed
throughput minus the target equation at that measurement's concurrency. In
general the residual is `x_i − X(trunc(n_i))` with `trunc` the saturating
`f64 as u32` cast. -/
theorem eval_eq_target_residual (f : ModelFitter) (p : ℚ × ℚ × ℚ)
    (h : ∀ m ∈ f.measurements, ∃ k : ℕ, k ≤ 4294967295 ∧ m.n = (k : ℚ)) :
    f.eval p = f.measurements.map (fun m => m.x - targetX p.1 p.2.1 p.2.2 m.n) := by
  unfold ModelFitter.eval
  apply List.map_congr_left
  intro m hm
  obtain ⟨k, hk, hn⟩ := h m hm
  rw [hn, f64AsU32_natCast k hk]
  rfl

/-- Witness for C6 (amended) on a single integral-concurrency measurement. -/
theorem eval_eq_target_residual_witness :
    ModelFitter.eval { measurements := [Measurement.concurrency_and_throughput 2 5] }
      (0, 0, 1) =
    [Measurement.concurrency_and_throughput 2 5].map
      (fun m => m.x - targetX 0 0 1 m.n) :=
  eval_eq_target_residual _ (0, 0, 1) (by
    intro m hm
    simp only [List.mem_singleton] at hm
    subst hm
    exact ⟨2, by norm_num, by norm_num [Measurement.concurrency_and_throughput]⟩)

/-- **C4, counterexample.** `concurrency_and_latency(3, 0)` and
`concurrency_and_throughput(3, 0)` do NOT fail with a domain error: both
constructors are total and return a `Measurement` recording the zero quantity
unchanged (the derived field holds the IEEE division-by-zero garbage,
`+inf`; the ℚ embedding's `q / 0 = 0` stands in for it). No error outcome
exists in the constructors' types, refuting the claim. -/
theorem measurement_zero_divisor_no_error :
    (Measurement.concurrency_and_latency 3 0).r = 0 ∧
    (Measurement.concurrency_and_latency 3 0).n = 3 ∧
    (Measurement.concurrency_and_throughput 3 0).x = 0 ∧
    (Measurement.concurrency_and_throughput 3 0).n = 3 := by
  refine ⟨rfl, ?_, rfl, ?_⟩ <;> norm_num [Measurement.concurrency_and_latency,
    Measurement.concurrency_and_throughput]

/-- **C4, amended.** For every `n`, `concurrency_and_latency(n, 0)` and
`concurrency_and_throughput(n, 0)` silently return a `Measurement` (storing
the supplied concurrency and the zero quantity; the derived field is the
undefined quotient) rather than failing: the constructors have no error
path. -/
theorem measurement_zero_divisor_total (n : ℕ) :
    (Measurement.concurrency_and_latency n 0).n = n ∧
    (Measurement.concurrency_and_latency n 0).r = 0 ∧
    (Measurement.concurrency_and_throughput n 0).n = n ∧
    (Measurement.concurrency_and_throughput n 0).x = 0 :=
  ⟨rfl, rfl, rfl, rfl⟩

/-- **C7, counterexample.** The boundary clause fails: for
`σ = κ = 2⁻⁵³ ≠ 0`, `is_limitless` is TRUE (the `relative_eq!` tolerance is
`f64::EPSILON = 2⁻⁵²`), although the claim requires all three predicates to
be false when `σ = κ ≠ 0`. -/
theorem classification_boundary_ctex :
    (Model.mk (1 / 2 ^ 53) (1 / 2 ^ 53) 1).sigma =
      (Model.mk (1 / 2 ^ 53) (1 / 2 ^ 53) 1).kappa ∧
    (Model.mk (1 / 2 ^ 53) (1 / 2 ^ 53) 1).kappa ≠ 0 ∧
    (Model.mk (1 / 2 ^ 53) (1 / 2 ^ 53) 1).is_limitless = true := by
  refine ⟨rfl, by norm_num, ?_⟩
  rw [Model.is_limitless, relative_eq_zero_iff]
  norm_num [f64Epsilon, abs_le]

/-- **C7, amended.** `is_contention_constrained` and
`is_coherency_constrained` are always mutually exclusive;
`is_limitless` holds exactly when `|κ| ≤ f64::EPSILON = 2⁻⁵²`, so the three
predicates are pairwise exclusive whenever `σ ≠ κ` and `|κ| > 2⁻⁵²` (but
`is_limitless` can co-hold with either of the other two when
`0 < |κ| ≤ 2⁻⁵²`), and all three are false when `σ = κ` and `|κ| > 2⁻⁵²`. -/
theorem model_classification (m : Model) :
    (¬(m.is_contention_constrained = true ∧ m.is_coherency_constrained = true)) ∧
    (m.is_limitless = true ↔ |m.kappa| ≤ f64Epsilon) ∧
    (m.sigma = m.kappa → f64Epsilon < |m.kappa| →
      m.is_contention_constrained = false ∧
      m.is_coherency_constrained = false ∧
      m.is_limitless = false) := by
  refine ⟨?_, relative_eq_zero_iff m.kappa, fun heq hk => ⟨?_, ?_, ?_⟩⟩
  · rintro ⟨h1, h2⟩
    simp only [Model.is_contention_constrained, Model.is_coherency_constrained,
      decide_eq_true_eq] at h1 h2
    exact absurd h1 (not_lt.2 h2.le)
  · simp [Model.is_contention_constrained, heq]
  · simp [Model.is_coherency_constrained, heq]
  · rw [Bool.eq_false_iff]
    intro hl
    exact absurd ((relative_eq_zero_iff m.kappa).1 hl) (not_le.2 hk)

/-- Witness for C7 (amended) at the boundary model `σ = κ = 1`. -/
theorem model_classification_witness :
    (Model.mk 1 1 1).is_contention_constrained = false ∧
    (Model.mk 1 1 1).is_coherency_constrained = false ∧
    (Model.mk 1 1 1).is_limitless = false :=
  (model_classification (Model.mk 1 1 1)).2.2 rfl (by norm_num [f64Epsilon])

/-- Witness for C5 at `n = 3`, `x = 5`, `r = 1/2`. -/
theorem measurement_littles_law_witness :
    ((Measurement.concurrency_and_latency 3 (1/2)).n =
      (Measurement.concurrency_and_latency 3 (1/2)).x *
        (Measurement.concurrency_and_latency 3 (1/2)).r) ∧
    ((Measurement.concurrency_and_throughput 3 5).n =
      (Measurement.concurrency_and_throughput 3 5).x *
        (Measurement.concurrency_and_throughput 3 5).r) ∧
    ((Measurement.throughput_and_latency 5 (1/2)).n =
      (Measurement.throughput_and_latency 5 (1/2)).x *
        (Measurement.throughput_and_latency 5 (1/2)).r) :=
  measurement_littles_law 3 5 (1/2) (by norm_num) (by norm_num)

/-- **C8, counterexample.** For a model with `κ = 0` (here
`σ = 1/2, κ = 0, λ = 100`), `max_concurrency()` does NOT fail: it returns
the numeric value `u32::MAX = 4294967295` (the saturating cast of
`floor(sqrt((1−σ)/0)) = +inf`). The function is total with no error outcome,
refuting the claim that an `UndefinedQuery` error is raised. -/
theorem max_concurrency_kappa_zero_ctex :
    (Model.mk (1/2) 0 100).max_concurrency = 4294967295 := by
  norm_num [Model.max_concurrency]

/-- **C8, amended.** For every model with `κ = 0`, `max_concurrency()` does
not fail but returns a numeric value: `u32::MAX = 4294967295` when `σ < 1`
(the IEEE quotient is `+inf`) and `0` when `σ ≥ 1` (the quotient is `-inf`
or `NaN`, whose square root is `NaN`, cast to `0`). -/
theorem max_concurrency_kappa_zero (m : Model) (hk : m.kappa = 0) :
    (m.sigma < 1 → m.max_concurrency = 4294967295) ∧
    (1 ≤ m.sigma → m.max_concurrency = 0) := by
  constructor
  · intro hs
    simp [Model.max_concurrency, hk, sub_pos.2 hs]
  · intro hs
    simp [Model.max_concurrency, hk]
    linarith

/-- Witness for C8 (amended) at `σ = 0, κ = 0, λ = 5`. -/
theorem max_concurrency_kappa_zero_witness :
    (Model.mk 0 0 5).max_concurrency = 4294967295 :=
  (max_concurrency_kappa_zero (Model.mk 0 0 5) rfl).1 (by norm_num)

/-- The denominator of the USL equation is positive for every `n : ℕ` when
`0 ≤ σ < 1` and `0 ≤ κ`. -/
theorem usl_denom_pos (m : Model) (hs0 : 0 ≤ m.sigma) (hs1 : m.sigma < 1)
    (hk : 0 ≤ m.kappa) (n : ℕ) :
    0 < 1 + (m.sigma * ((n : ℚ) - 1)) + (m.kappa * (n : ℚ) * ((n : ℚ) - 1)) := by
  rcases Nat.eq_zero_or_pos n with h0 | hpos
  · subst h0
    push_cast
    nlinarith
  · have h1 : (1 : ℚ) ≤ (n : ℚ) := by exact_mod_cast hpos
    have hn0 : (0 : ℚ) ≤ (n : ℚ) := by positivity
    nlinarith [mul_nonneg hs0 (by linarith : (0 : ℚ) ≤ (n : ℚ) - 1),
      mul_nonneg (mul_nonneg hk hn0) (by linarith : (0 : ℚ) ≤ (n : ℚ) - 1)]

/-- One discrete step of the fitted USL curve: for `0 ≤ σ < 1`, `κ > 0`,
`λ > 0`, the predicted throughput rises from `n` to `n + 1` exactly while
`κ · n(n+1) ≤ 1 − σ` and falls once `κ · n(n+1) ≥ 1 − σ`. -/
theorem throughput_step (m : Model) (hs0 : 0 ≤ m.sigma) (hs1 : m.sigma < 1)
    (hk : 0 < m.kappa) (hl : 0 < m.lambda) (n : ℕ) :
    (m.kappa * ((n : ℚ) * ((n : ℚ) + 1)) ≤ 1 - m.sigma →
      m.throughput_at_concurrency n ≤ m.throughput_at_concurrency (n + 1)) ∧
    (1 - m.sigma ≤ m.kappa * ((n : ℚ) * ((n : ℚ) + 1)) →
      m.throughput_at_concurrency (n + 1) ≤ m.throughput_at_concurrency n) := by
  have hD1 := usl_denom_pos m hs0 hs1 hk.le n
  have hD2 := usl_denom_pos m hs0 hs1 hk.le (n + 1)
  constructor
  · intro h
    unfold Model.throughput_at_concurrency
    rw [div_le_div_iff₀ hD1 hD2]
    push_cast
    nlinarith [mul_nonneg hl.le (sub_nonneg.2 h)]
  · intro h
    unfold Model.throughput_at_concurrency
    rw [div_le_div_iff₀ hD2 hD1]
    push_cast
    nlinarith [mul_nonneg hl.le (sub_nonneg.2 h)]

/-- The computed `max_concurrency` never overshoots the continuous optimum:
its square is at most `(1 − σ)/κ`. -/
theorem max_concurrency_sq_le (m : Model) (hs1 : m.sigma < 1) (hk : 0 < m.kappa) :
    (m.max_concurrency : ℚ) * (m.max_concurrency : ℚ) ≤ (1 - m.sigma) / m.kappa := by
  have ha : 0 < (1 - m.sigma) / m.kappa := div_pos (by linarith) hk
  have hfl : (0 : ℤ) ≤ ⌊(1 - m.sigma) / m.kappa⌋ := Int.floor_nonneg.2 ha.le
  rw [Model.max_concurrency, if_neg hk.ne', if_neg (not_lt.2 ha.le)]
  set t : ℕ := Int.toNat ⌊(1 - m.sigma) / m.kappa⌋ with ht
  have hmin : min (Nat.sqrt t) 4294967295 ≤ Nat.sqrt t := min_le_left _ _
  have hsq : min (Nat.sqrt t) 4294967295 * min (Nat.sqrt t) 4294967295 ≤ t :=
    le_trans (Nat.mul_le_mul hmin hmin) (Nat.sqrt_le t)
  have hq : ((min (Nat.sqrt t) 4294967295 : ℕ) : ℚ) *
      ((min (Nat.sqrt t) 4294967295 : ℕ) : ℚ) ≤ (t : ℚ) := by
    exact_mod_cast hsq
  refine hq.trans ?_
  have : ((t : ℤ) : ℚ) ≤ (1 - m.sigma) / m.kappa := by
    rw [ht, Int.toNat_of_nonneg hfl]
    exact Int.floor_le _
  exact_mod_cast this

/-- **C9, counterexample.** `throughput_at_concurrency(max_concurrency())` is
NOT always a local maximum: for `σ = 0, κ = 2/5, λ = 1` (a physically sane
model), `max_concurrency() = ⌊√(5/2)⌋ = 1` but
`X(2) = 10/9 > 1 = X(1)` — the throughput one step above the reported peak is
strictly larger. -/
theorem max_concurrency_not_local_max :
    (Model.mk 0 (2/5) 1).max_concurrency = 1 ∧
    (Model.mk 0 (2/5) 1).throughput_at_concurrency ((Model.mk 0 (2/5) 1).max_concurrency) <
      (Model.mk 0 (2/5) 1).throughput_at_concurrency
        ((Model.mk 0 (2/5) 1).max_concurrency + 1) := by
  have h1 : (Model.mk 0 (2/5) 1).max_concurrency = 1 := by
    rw [Model.max_concurrency]
    norm_num
    rw [show Int.toNat 2 = 2 from rfl,
      show Nat.sqrt 2 = 1 from (Nat.eq_sqrt.2 (by norm_num)).symm]
    decide
  refine ⟨h1, ?_⟩
  rw [h1]
  norm_num [Model.throughput_at_concurrency]

/-- **C9, amended.** For every model with `κ > 0`, `0 ≤ σ < 1`, `λ > 0` and
`max_concurrency() ≥ 1`: stepping one unit DOWN from `max_concurrency()`
never increases the predicted throughput; stepping one unit UP does not
increase it either provided `(1 − σ)/κ ≤ N(N+1)` for `N = max_concurrency()`
— without that proviso the upward step can yield strictly larger throughput
(see the counterexample), because `max_concurrency` floors the continuous
optimum `√((1−σ)/κ)` while the discrete argmax may be the next integer. -/
theorem max_concurrency_local_max (m : Model) (hs0 : 0 ≤ m.sigma)
    (hs1 : m.sigma < 1) (hk : 0 < m.kappa) (hl : 0 < m.lambda)
    (hN : 1 ≤ m.max_concurrency) :
    m.throughput_at_concurrency (m.max_concurrency - 1) ≤
      m.throughput_at_concurrency m.max_concurrency ∧
    ((1 - m.sigma) / m.kappa ≤
        (m.max_concurrency : ℚ) * ((m.max_concurrency : ℚ) + 1) →
      m.throughput_at_concurrency (m.max_concurrency + 1) ≤
        m.throughput_at_concurrency m.max_concurrency) := by
  have hsq := max_concurrency_sq_le m hs1 hk
  have hN1 : (1 : ℚ) ≤ (m.max_concurrency : ℚ) := by exact_mod_cast hN
  have hkN2 : m.kappa * ((m.max_concurrency : ℚ) * (m.max_concurrency : ℚ)) ≤
      1 - m.sigma := by
    have h := mul_le_mul_of_nonneg_left hsq hk.le
    rwa [mul_div_cancel₀ _ hk.ne'] at h
  constructor
  · have hstep := (throughput_step m hs0 hs1 hk hl (m.max_concurrency - 1)).1
    have hsub : m.max_concurrency - 1 + 1 = m.max_concurrency :=
      Nat.succ_pred_eq_of_pos hN
    rw [hsub] at hstep
    apply hstep
    have hcast : ((m.max_concurrency - 1 : ℕ) : ℚ) = (m.max_concurrency : ℚ) - 1 := by
      rw [Nat.cast_sub hN, Nat.cast_one]
    rw [hcast]
    nlinarith [mul_nonneg hk.le (by linarith : (0 : ℚ) ≤ (m.max_concurrency : ℚ))]
  · intro hup
    have hstep := (throughput_step m hs0 hs1 hk hl m.max_concurrency).2
    apply hstep
    rw [mul_comm]
    exact (div_le_iff₀ hk).1 hup

/-- Witness for C9 (amended) at `σ = 0, κ = 1, λ = 1`, where
`max_concurrency() = 1` and `(1 − σ)/κ = 1 ≤ 1·2`. -/
theorem max_concurrency_local_max_witness :
    (Model.mk 0 1 1).throughput_at_concurrency ((Model.mk 0 1 1).max_concurrency - 1) ≤
      (Model.mk 0 1 1).throughput_at_concurrency (Model.mk 0 1 1).max_concurrency ∧
    (Model.mk 0 1 1).throughput_at_concurrency ((Model.mk 0 1 1).max_concurrency + 1) ≤
      (Model.mk 0 1 1).throughput_at_concurrency (Model.mk 0 1 1).max_concurrency := by
  have hmc : (Model.mk 0 1 1).max_concurrency = 1 := by
    rw [Model.max_concurrency]
    norm_num
  have h := max_concurrency_local_max (Model.mk 0 1 1) le_rfl (by norm_num)
    (by norm_num) (by norm_num) (by rw [hmc])
  exact ⟨h.1, h.2 (by rw [hmc]; norm_num)⟩
